import Mathlib

/-!
Verification of the SmoothOperator checklist engine against its
natural-language specification.

The development shallowly embeds the Python sources:
- `src/validation_system/core.py` (`TransitionValidator.validate_task`),
- `src/validation_system/blockers/auto_blocker_resolver.py` (`BlockerResolver`),
- `src/orchestrator.py` (`Orchestrator.execute_checklist`, `_save_status`,
  `_check_success_gate`).

External effects (subprocess runs, the filesystem, the AI client) are modelled
as explicit environment values handed to the embedded functions; machine
behaviour that the code only observes (exit codes, stdout parses, file
contents) is part of those environments.
-/

namespace SmoothOperator

/-- JSON-like values, as produced by Python's `json.loads`. -/
inductive JsonVal where
  | str (s : String)
  | num (n : Int)
  | boolVal (b : Bool)
  | nullVal
  | arr (elems : List JsonVal)
  | obj (fields : List (String × JsonVal))

/-- Python `value == "some string"`: true exactly when the value is that string. -/
def JsonVal.isStr : JsonVal → String → Bool
  | .str s, t => s == t
  | _, _ => false

/-- Lookup in a Python dict rendered as an association list (keys are unique
in a dict; we read the first occurrence). -/
def getA {α : Type} : List (String × α) → String → Option α
  | [], _ => none
  | kv :: rest, k => if kv.1 == k then some kv.2 else getA rest k

/-- Python dict assignment `d[k] = v`: replace in place if the key exists,
append otherwise. -/
def setA {α : Type} : List (String × α) → String → α → List (String × α)
  | [], k, v => [(k, v)]
  | kv :: rest, k, v => if kv.1 == k then (k, v) :: rest else kv :: setA rest k v

/-- Does the second character list occur at the start of the first? -/
def charListStarts : List Char → List Char → Bool
  | _, [] => true
  | [], _ :: _ => false
  | c :: cs, d :: ds => c == d && charListStarts cs ds

/-- Does `sub` occur as a contiguous run inside `s`? -/
def charListContains (s sub : List Char) : Bool :=
  match s with
  | [] => sub.isEmpty
  | _ :: rest => charListStarts s sub || charListContains rest sub

/-- Python's `sub in s` substring test. -/
def strContains (s sub : String) : Bool :=
  charListContains s.toList sub.toList

/-- ASCII fragment of Python `str.lower` (the repository only lowercases
ASCII assistant responses before testing for a substring). -/
def pyLower (s : String) : String :=
  String.mk (s.toList.map (fun c =>
    if 'A' ≤ c && c ≤ 'Z' then Char.ofNat (c.toNat + 32) else c))

/-- Outcome of one `subprocess.run` call: either the call itself raised
(`exc`), or a process ran and produced an exit code, stdout and stderr. -/
inductive RunOutcome where
  | exc (msg : String)
  | ran (returncode : Int) (stdout stderr : String)

/-! ## `src/validation_system/core.py` -/

/-- `ValidationStatus` (core.py lines 9-14). -/
inductive ValidationStatus where
  | success | failure | blocked | skipped
deriving Repr, DecidableEq

/-- `ValidationResult` (core.py lines 17-22): exactly three fields —
`status`, `artifacts`, `error_message`.  The dataclass annotates
`error_message: Optional[str]` but nothing coerces the value placed there
(line 80 stores whatever JSON value the script's output carried), so the
embedding keeps the JSON value. -/
structure ValidationResult where
  status : ValidationStatus
  artifacts : List (String × String)
  error_message : Option JsonVal := none

/-- A task's `validation` block: `{script, artifacts}` (artifacts default `[]`,
core.py line 40). -/
structure ValidationSpec where
  script : String
  artifacts : List String := []

/-- How a diagnostic's (or validation script's) stdout parses under
`json.loads`: decode error, a non-dict JSON value, or a JSON object. -/
inductive StdoutParse where
  | decodeError
  | nonDict
  | dict (fields : List (String × JsonVal))

/-- Environment for one call of `TransitionValidator.validate_task`: the
outcome of `subprocess.run(["python", script])`, the parse of its stdout as
one structured document (`none` models a `json.JSONDecodeError`; the script
output contract in the spec's §6 guarantees a dict when it parses), and the
contents of files under the validator's artifacts directory. -/
structure ValEnv where
  run : RunOutcome
  stdoutObj : Option (List (String × JsonVal))
  artifactFile : String → Option String

/-- The artifact-collection loop of core.py lines 61-72: read each expected
artifact in order; on the first one missing, fail carrying the artifacts
collected so far. -/
def collectArtifacts (file : String → Option String) :
    List String → List (String × String) →
    Except (List (String × String) × String) (List (String × String))
  | [], acc => .ok acc
  | a :: rest, acc =>
    match file a with
    | some content => collectArtifacts file rest (acc ++ [(a, content)])
    | none => .error (acc, a)

/-- `TransitionValidator.validate_task` (core.py lines 32-95), with blockers
and the enclosing `try` folded into the `RunOutcome.exc` case. -/
def validate_task (env : ValEnv) (task_validation : Option ValidationSpec) :
    ValidationResult :=
  match task_validation with
  | none =>
    { status := .success, artifacts := [] }
  | some v =>
    match env.run with
    | .exc msg =>
      { status := .failure, artifacts := [],
        error_message := some (.str ("Validation error: " ++ msg)) }
    | .ran rc _ stderr =>
      if rc != 0 then
        { status := .failure, artifacts := [],
          error_message := some (.str ("Validation script failed: " ++ stderr)) }
      else
        match env.stdoutObj with
        | none =>
          { status := .failure, artifacts := [],
            error_message := some (.str "Invalid validation script output format") }
        | some output =>
          let status := (getA output "status").getD (.str "failure")
          match collectArtifacts env.artifactFile v.artifacts [] with
          | .error (collected, missing) =>
            { status := .failure, artifacts := collected,
              error_message := some (.str ("Missing artifact: " ++ missing)) }
          | .ok arts =>
            if status.isStr "success" then
              { status := .success, artifacts := arts }
            else
              { status := .failure, artifacts := arts,
                error_message := some ((getA output "error_message").getD (.str "Validation failed")) }

/-! ## `src/validation_system/blockers/auto_blocker_resolver.py` -/

/-- A blocker's `resolution` descriptor.  `lmstudio_prompt` is read with
`.get` and then tested for truthiness, so both an absent key and an empty
string skip the prompt rule; `required_experts` defaults to `[]`. -/
structure Resolution where
  diagnostics : Option String := none
  lmstudio_prompt : Option String := none
  required_experts : List String := []

/-- A blocker: `{type, resolution}`. -/
structure Blocker where
  type : String
  resolution : Resolution

/-- Environment for one `_check_if_resolved` call: the outcome of running the
blocker's diagnostic command, how that command's stdout parses under
`json.loads`, and the text the AI client returns for the blocker's prompt. -/
structure BlockerEnv where
  diagRun : RunOutcome
  diagParse : StdoutParse
  aiResponse : String

/-- Python truthiness of the value read for `lmstudio_prompt`. -/
def promptTruthy : Option String → Bool
  | none => false
  | some p => p != ""

/-- `BlockerResolver._check_if_resolved` (auto_blocker_resolver.py lines
23-70).  The diagnostics block can only force an early `False`: a passing
diagnostic falls through to the prompt / required-experts checks.  A non-dict
JSON stdout makes `output.get` raise `AttributeError`, which the outer
`except Exception` turns into `False`. -/
def check_if_resolved (env : BlockerEnv) (b : Blocker) : Bool :=
  let r := b.resolution
  let diagEarly : Option Bool :=
    match r.diagnostics with
    | none => none
    | some _ =>
      match env.diagRun with
      | .exc _ => some false
      | .ran rc _ _ =>
        if rc != 0 then some false
        else
          match env.diagParse with
          | .decodeError => none
          | .nonDict => some false
          | .dict fields =>
            match getA fields "status" with
            | some v => if v.isStr "success" then none else some false
            | none => some false
  match diagEarly with
  | some early => early
  | none =>
    if promptTruthy r.lmstudio_prompt then
      strContains (pyLower env.aiResponse) "resolved"
    else if r.required_experts.isEmpty then true
    else false

/-- `BlockerResolver.resolve_blockers` (lines 12-21): keep, in order, the
blockers that `_check_if_resolved` rejects.  Each blocker gets its own
environment (its own diagnostic run and assistant call), indexed by
position. -/
def resolve_blockers (env : Nat → BlockerEnv) (blockers : List Blocker) :
    List Blocker :=
  (blockers.enum.filter (fun ib => ! check_if_resolved (env ib.1) ib.2)).map
    (fun ib => ib.2)

/-- Does the diagnostics stage let this blocker through?  (exit code zero
and stdout either not JSON at all or a JSON dict whose `status` is
`"success"`.)  Used to phrase the resolution policy as the code stages it. -/
def diagPasses (env : BlockerEnv) : Bool :=
  match env.diagRun with
  | .exc _ => false
  | .ran rc _ _ =>
    rc == 0 &&
    (match env.diagParse with
     | .decodeError => true
     | .nonDict => false
     | .dict fields =>
       match getA fields "status" with
       | some v => v.isStr "success"
       | none => false)

/-- The resolution policy the code actually implements, written in stages:
declared-but-failing diagnostics force unresolved; otherwise a truthy prompt
decides by the "resolved" substring test; otherwise the blocker is resolved
iff no experts are required. -/
def stagedResolution (env : BlockerEnv) (r : Resolution) : Bool :=
  if r.diagnostics.isSome && ! diagPasses env then false
  else if promptTruthy r.lmstudio_prompt then
    strContains (pyLower env.aiResponse) "resolved"
  else r.required_experts.isEmpty

/-! ## `src/orchestrator.py` -/

/-- Task and phase statuses as the status document stores them
(`"not_started"`, `"in_progress"`, `"completed"`, `"failed"`, `"blocked"`). -/
inductive TaskStatus where
  | not_started | in_progress | completed | failed | blocked
deriving Repr, DecidableEq

/-- One phase's entry in the status document: `{status, tasks}`. -/
structure PhaseEntry where
  status : TaskStatus
  tasks : List (String × TaskStatus)
deriving Repr, DecidableEq

/-- The persisted status document: phase name to phase entry. -/
abbrev StatusDoc := List (String × PhaseEntry)

/-- A task as the orchestrator reads it. -/
structure Task where
  description : String
  command : Option String := none
  validation : Option ValidationSpec := none
  blockers : List Blocker := []

/-- A phase: name, tasks, optional success gate. -/
structure SuccessGate where
  metric : Option String := none
  min_value : Int := 0

structure OPhase where
  name : String
  tasks : List Task := []
  success_gate : Option SuccessGate := none

structure Checklist where
  phases : List OPhase

/-- `Orchestrator._check_success_gate` (orchestrator.py lines 205-230):
`min_value` is read (line 212) but never compared; every metric branch is a
`TODO` stub returning `True`, and the final fallback (line 226) also returns
`True`. -/
def check_success_gate (gate : SuccessGate) : Bool :=
  match gate.metric with
  | none => true
  | some m =>
    if m == "integration_test_coverage" then true
    else if m == "api_test_coverage" then true
    else if m == "validation_coverage" then true
    else true

/-- Externally observable process invocations of `execute_checklist`. -/
inductive Ev where
  | phaseStart (phase : String)
  | taskStart (phase task : String)
  | cmdRun (phase task : String)
  | valRun (phase task : String)
deriving Repr, DecidableEq

/-- Mutable state threaded through `execute_checklist`: the in-memory status
document, the chronological list of documents passed to `_save_status`, and
the event trace. -/
structure ExecState where
  doc : StatusDoc
  saves : List StatusDoc
  events : List Ev
deriving Repr, DecidableEq

/-- `self._save_status()`: append the current document to the persisted
history. -/
def save (st : ExecState) : ExecState :=
  { st with saves := st.saves ++ [st.doc] }

def emit (e : Ev) (st : ExecState) : ExecState :=
  { st with events := st.events ++ [e] }

/-- Lines 96-98: insert a fresh phase entry if the document lacks one. -/
def ensurePhase (doc : StatusDoc) (p : String) : StatusDoc :=
  match getA doc p with
  | some _ => doc
  | none => doc ++ [(p, { status := .not_started, tasks := [] })]

/-- `self.status[phase_name]["status"] = s`; the executor inserts the phase
before ever writing it, so the missing-phase branch is unreachable there. -/
def setPhase (doc : StatusDoc) (p : String) (s : TaskStatus) : StatusDoc :=
  match getA doc p with
  | some e => setA doc p { e with status := s }
  | none => doc

/-- `self.status[phase_name]["tasks"][task_desc] = s` (same remark). -/
def setTask (doc : StatusDoc) (p d : String) (s : TaskStatus) : StatusDoc :=
  match getA doc p with
  | some e => setA doc p { e with tasks := setA e.tasks d s }
  | none => doc

def getTask (doc : StatusDoc) (p d : String) : Option TaskStatus :=
  match getA doc p with
  | some e => getA e.tasks d
  | none => none

def markTask (st : ExecState) (p d : String) (s : TaskStatus) : ExecState :=
  { st with doc := setTask st.doc p d s }

/-- Environment for one task: per-blocker environments, the outcome of the
task's command (consulted only if a command is declared), and the outcome of
`subprocess.run(["python", script])` for its validation script (consulted
only if a validation block is declared). -/
structure TaskEnv where
  blockerEnv : Nat → BlockerEnv
  cmdRun : RunOutcome
  valRun : RunOutcome

/-- Lines 158-182: the validation block of the task loop, followed by the
completed marking.  Only the exit code of the script process is consulted;
stdout is printed, never parsed.  Zero exit falls through to lines 181-182
(mark completed, save); non-zero exit or a raised exception marks the task
failed, saves, and aborts the run (`return 1`). -/
def valStage (te : TaskEnv) (pname : String) (t : Task) (st : ExecState) :
    ExecState × Bool :=
  match t.validation with
  | none => (save (markTask st pname t.description .completed), false)
  | some _ =>
    let st := emit (.valRun pname t.description) st
    match te.valRun with
    | .exc _ => (save (markTask st pname t.description .failed), true)
    | .ran rc _ _ =>
      if rc != 0 then (save (markTask st pname t.description .failed), true)
      else (save (markTask st pname t.description .completed), false)

/-- Lines 135-156: the command block.  A non-zero exit code or an exception
marks the task failed, saves, and aborts the run. -/
def cmdStage (te : TaskEnv) (pname : String) (t : Task) (st : ExecState) :
    ExecState × Bool :=
  match t.command with
  | none => valStage te pname t st
  | some _ =>
    let st := emit (.cmdRun pname t.description) st
    match te.cmdRun with
    | .exc _ => (save (markTask st pname t.description .failed), true)
    | .ran rc _ _ =>
      if rc != 0 then (save (markTask st pname t.description .failed), true)
      else valStage te pname t st

/-- Lines 102-182: one iteration of the task loop.  The `Bool` is `true`
when the iteration executed `return 1` (whole-run abort); a blocked task
instead `continue`s, so it yields `false`. -/
def runTask (te : TaskEnv) (pname : String) (t : Task) (st : ExecState) :
    ExecState × Bool :=
  let st1 := save (markTask (emit (.taskStart pname t.description) st)
    pname t.description .in_progress)
  if t.blockers.isEmpty then cmdStage te pname t st1
  else if (resolve_blockers te.blockerEnv t.blockers).isEmpty then
    cmdStage te pname t st1
  else (save (markTask st1 pname t.description .blocked), false)

def runTasks (env : Nat → TaskEnv) (pname : String) :
    List Task → Nat → ExecState → ExecState × Bool
  | [], _, st => (st, false)
  | t :: rest, i, st =>
    match runTask (env i) pname t st with
    | (st', true) => (st', true)
    | (st', false) => runTasks env pname rest (i + 1) st'

/-- Lines 92-100: announce the phase, insert its entry if missing, mark it
in progress and save. -/
def startPhase (st : ExecState) (pname : String) : ExecState :=
  let st := emit (.phaseStart pname) st
  save { st with doc := setPhase (ensurePhase st.doc pname) pname .in_progress }

/-- Lines 91-196: one phase — tasks, then the success gate (lines 184-193),
then the completed marking (lines 195-196). -/
def runPhase (tenv : Nat → TaskEnv) (p : OPhase) (st : ExecState) :
    ExecState × Bool :=
  match runTasks tenv p.name p.tasks 0 (startPhase st p.name) with
  | (st2, true) => (st2, true)
  | (st2, false) =>
    match p.success_gate with
    | some g =>
      if ! check_success_gate g then
        (save { st2 with doc := setPhase st2.doc p.name .failed }, true)
      else
        (save { st2 with doc := setPhase st2.doc p.name .completed }, false)
    | none =>
      (save { st2 with doc := setPhase st2.doc p.name .completed }, false)

def runPhases (env : Nat → Nat → TaskEnv) :
    List OPhase → Nat → ExecState → ExecState × Bool
  | [], _, st => (st, false)
  | p :: rest, i, st =>
    match runPhase (env i) p st with
    | (st', true) => (st', true)
    | (st', false) => runPhases env rest (i + 1) st'

/-- `Orchestrator.execute_checklist` (lines 83-203), started on a loaded
checklist with status document `doc0`: returns the final state and the
process exit code (1 on any abort, 0 otherwise). -/
def execute_checklist (env : Nat → Nat → TaskEnv) (c : Checklist)
    (doc0 : StatusDoc) : ExecState × Nat :=
  match runPhases env c.phases 0 { doc := doc0, saves := [], events := [] } with
  | (st, true) => (st, 1)
  | (st, false) => (st, 0)

/-- `load_checklist` lines 56-65: the freshly initialised status document. -/
def initStatus (c : Checklist) : StatusDoc :=
  c.phases.map (fun p =>
    (p.name, { status := TaskStatus.not_started,
               tasks := p.tasks.map (fun t => (t.description, TaskStatus.not_started)) }))

/-- The 1:1 terminal-status mapping stated by the spec for validation
results: SUCCESS→COMPLETED, FAILURE→FAILED, BLOCKED→BLOCKED,
SKIPPED→COMPLETED. -/
def terminalImage : ValidationStatus → TaskStatus
  | .success => .completed
  | .failure => .failed
  | .blocked => .blocked
  | .skipped => .completed

/-! ## `Orchestrator._save_status` at the filesystem level -/

/-- Primitive filesystem writes.  `truncate` is what `open(path, "w")` does
on an existing file; `append` is a subsequent stream write. -/
inductive FsOp where
  | truncate (path : String)
  | append (path : String) (data : String)
deriving Repr, DecidableEq

def FsOp.path : FsOp → String
  | .truncate p => p
  | .append p _ => p

/-- Filesystem contents: path to file content. -/
abbrev Fs := List (String × String)

def applyOp (fs : Fs) : FsOp → Fs
  | .truncate p => setA fs p ""
  | .append p d => setA fs p ((getA fs p).getD "" ++ d)

def applyOps (fs : Fs) (ops : List FsOp) : Fs := ops.foldl applyOp fs

/-- `Orchestrator._save_status` (orchestrator.py lines 71-81):
`open(status_path, "w")` truncates the status file in place, then
`json.dump` streams the serialised document into that same file.  No
temporary file and no atomic rename occur. -/
def saveStatusOps (status_path serialized : String) : List FsOp :=
  [.truncate status_path, .append status_path serialized]

/-- The filesystem states a crash can leave behind: the initial state and
the state after each number of completed operations. -/
def crashStates (fs : Fs) (ops : List FsOp) : List Fs :=
  (List.range (ops.length + 1)).map (fun n => applyOps fs (ops.take n))

/-! ## ArtifactStore cleanup -/

/-- A file in a task's artifact directory, with its last-access age. -/
structure AFile where
  name : String
  accessAgeDays : Nat
deriving Repr, DecidableEq

/-- Modelled from the spec: `cleanup_artifacts(task_id, max_age_days)` is
missing from `src/validation_system/core.py` — only the test
`src/tests/test_validation.py::test_cleanup_artifacts` calls it.  Per the
spec's §4.5, it deletes the files of the task's artifact directory whose
last-access age exceeds the threshold, preserves the files within the
window, returns the number of deleted files, and returns 0 without error
when the directory does not exist.  The store maps task ids to directory
listings. -/
def cleanup_artifacts (store : List (String × List AFile)) (task_id : String)
    (max_age_days : Nat) : Nat × List (String × List AFile) :=
  match getA store task_id with
  | none => (0, store)
  | some files =>
    let deleted := files.filter (fun f => decide (max_age_days < f.accessAgeDays))
    let kept := files.filter (fun f => ! decide (max_age_days < f.accessAgeDays))
    (deleted.length, setA store task_id kept)

/-! ## Concrete inputs used by counterexamples and witnesses -/

/-- A blocker whose diagnostic command passes (exit 0, unstructured stdout)
but which also names a required expert and declares no prompt. -/
def c3_blocker : Blocker :=
  { type := "TestFailure",
    resolution := { diagnostics := some "python -m pytest --verbose",
                    required_experts := ["QA Engineer"] } }

def c3_env : BlockerEnv :=
  { diagRun := .ran 0 "collected 3 items ... 3 passed" "",
    diagParse := .decodeError,
    aiResponse := "" }

/-- A blocker that reaches the assistant-prompt rule (passing diagnostics,
truthy prompt) whose assistant answers with the single word "unresolved". -/
def c10_blocker : Blocker :=
  { type := "TestFailure",
    resolution := { diagnostics := some "python -m pytest",
                    lmstudio_prompt := some "Can this blocker be lifted?",
                    required_experts := ["QA Engineer"] } }

def c10_env : BlockerEnv :=
  { diagRun := .ran 0 "\x7b\"status\": \"success\"\x7d" "",
    diagParse := .dict [("status", .str "success")],
    aiResponse := "unresolved" }

/-- One-phase one-task checklist whose task carries a validation spec. -/
def c1_task : Task :=
  { description := "T1",
    validation := some { script := "validate_test.py", artifacts := [] } }

def c1_checklist : Checklist :=
  { phases := [{ name := "P1", tasks := [c1_task] }] }

/-- The world for that run: the validation script exits 0 while reporting
`{"status": "failure"}` on stdout. -/
def c1_taskEnv : TaskEnv :=
  { blockerEnv := fun _ =>
      { diagRun := .ran 0 "" "", diagParse := .decodeError, aiResponse := "" },
    cmdRun := .ran 0 "" "",
    valRun := .ran 0 "\x7b\"status\": \"failure\"\x7d" "" }

def c1_env : Nat → Nat → TaskEnv := fun _ _ => c1_taskEnv

/-- The same world as `TransitionValidator.validate_task` would see it. -/
def c1_valEnv : ValEnv :=
  { run := .ran 0 "\x7b\"status\": \"failure\"\x7d" "",
    stdoutObj := some [("status", .str "failure")],
    artifactFile := fun _ => none }

/-- The stderr the Python interpreter prints when asked to run a script that
does not exist on disk. -/
def c6_stderr : String :=
  "python: can't open file 'validate_test.py': [Errno 2] No such file or directory\n"

def c6_env : ValEnv :=
  { run := .ran 2 "" c6_stderr,
    stdoutObj := none,
    artifactFile := fun _ => none }

/-- A run in which the script succeeds, reports success, and a metrics
document with a numeric field is among the collected artifacts. -/
def c8_env : ValEnv :=
  { run := .ran 0 "\x7b\"status\": \"success\"\x7d" "",
    stdoutObj := some [("status", .str "success")],
    artifactFile := fun name =>
      if name == "test.txt" then some "Test output"
      else if name == "metrics.json" then some "\x7b\"test_coverage\": 85\x7d"
      else none }

def c8_validation : ValidationSpec :=
  { script := "validate_test.py", artifacts := ["test.txt", "metrics.json"] }

def c5_env : ValEnv :=
  { run := .ran 0 "" "", stdoutObj := none, artifactFile := fun _ => none }

/-- Artifact store for the cleanup witness: one directory holding a file
aged 8 days and a file aged 0 days. -/
def c9_store : List (String × List AFile) :=
  [("test_phase/test_task", [{ name := "old.txt", accessAgeDays := 8 },
                             { name := "new.txt", accessAgeDays := 0 }])]

/-- Does the validation stage let the task through?  `execute_checklist`
consults nothing but the script process's exit code. -/
def valPassed (te : TaskEnv) : Bool :=
  match te.valRun with
  | .ran rc _ _ => rc == 0
  | .exc _ => false

/-- Filesystem before a save: the status file holds the previously
persisted document. -/
def c2_fs : Fs := [("test_status.json", "prior valid document")]

/-- Two-phase checklist whose first phase's first task runs a command that
exits 1; a second task and a second phase follow. -/
def c7_taskFail : Task := { description := "T1", command := some "exit 1" }

def c7_taskAfter : Task := { description := "T2", command := some "echo ok" }

def c7_phase1 : OPhase := { name := "P1", tasks := [c7_taskFail, c7_taskAfter] }

def c7_phase2 : OPhase := { name := "P2", tasks := [{ description := "T3" }] }

def c7_env : Nat → Nat → TaskEnv := fun _ _ =>
  { blockerEnv := fun _ =>
      { diagRun := .ran 0 "" "", diagParse := .decodeError, aiResponse := "" },
    cmdRun := .ran 1 "" "command failed",
    valRun := .ran 0 "" "" }

def c7_checklist : Checklist := { phases := [c7_phase1, c7_phase2] }

/-! ## Helper lemmas -/

theorem getA_setA {α : Type} (d : List (String × α)) (k : String) (v : α)
    (q : String) :
    getA (setA d k v) q = if k == q then some v else getA d q := by
  induction d with
  | nil => simp [getA, setA]
  | cons kv rest ih =>
    simp only [setA]
    by_cases h : kv.1 = k
    · subst h
      simp only [beq_self_eq_true, if_true, getA]
      by_cases hq : kv.1 = q
      · subst hq; simp
      · simp [hq, getA, show (kv.1 == q) = false by simpa using hq]
    · simp only [show (kv.1 == k) = false by simpa using h, Bool.false_eq_true,
        if_false, getA, ih]
      by_cases hq : kv.1 = q
      · subst hq
        simp [show (k == kv.1) = false by simpa using fun e => h e.symm]
      · simp [show (kv.1 == q) = false by simpa using hq]

theorem getA_setA_isSome {α : Type} (d : List (String × α)) (k : String)
    (v : α) (q : String) (h : (getA d q).isSome) :
    (getA (setA d k v) q).isSome := by
  rw [getA_setA]
  by_cases hk : k = q <;> simp [hk, h]

theorem setTask_present (doc : StatusDoc) (p d : String) (s : TaskStatus)
    (q : String) (h : (getA doc q).isSome) :
    (getA (setTask doc p d s) q).isSome := by
  unfold setTask
  cases hg : getA doc p with
  | none => exact h
  | some e => exact getA_setA_isSome _ _ _ _ h

theorem getTask_setTask_self (doc : StatusDoc) (p d : String) (s : TaskStatus)
    (h : (getA doc p).isSome) :
    getTask (setTask doc p d s) p d = some s := by
  unfold setTask getTask
  obtain ⟨e, he⟩ := Option.isSome_iff_exists.mp h
  rw [he]
  rw [getA_setA]
  simp [getA_setA]

/-! ## C4: the success gate -/

/-- C4: `_check_success_gate` accepts every gate — each metric branch is a
TODO stub returning `True` and the fallback also returns `True`; the
threshold `min_value` is read but never compared.  A below-threshold metric
therefore cannot mark a phase FAILED, contradicting the claim; this also
contradicts the code's own TODO markers and the spec, so the claim is
recorded as a code bug and this theorem evaluates the code. -/
theorem c4_gate_always_true (g : SuccessGate) : check_success_gate g = true := by
  unfold check_success_gate
  cases g.metric with
  | none => rfl
  | some m => by_cases h1 : m == "integration_test_coverage" <;>
      by_cases h2 : m == "api_test_coverage" <;>
      by_cases h3 : m == "validation_coverage" <;> simp [h1, h2, h3]

/-- C4 witness: the spec's own example gate (`test_coverage ≥ 80`) passes
regardless of any reported metric value. -/
theorem c4_gate_always_true_witness :
    check_success_gate { metric := some "test_coverage", min_value := 80 } = true :=
  c4_gate_always_true { metric := some "test_coverage", min_value := 80 }

/-! ## C5: task without a validation spec -/

/-- C5: with no validation spec, `validate_task` returns status SUCCESS (not
SKIPPED), an empty artifact map and **no** message (core.py line 36),
contradicting the claim and the repository's own test
`test_validate_task_no_validation`, which asserts SKIPPED and a
"No validation configured" message.  This theorem evaluates the code. -/
theorem c5_no_validation_returns_success (env : ValEnv)
    (tv : Option ValidationSpec) (h : tv = none) :
    validate_task env tv =
      { status := .success, artifacts := [], error_message := none } := by
  subst h; rfl

theorem c5_no_validation_returns_success_witness :
    validate_task c5_env none =
      { status := .success, artifacts := [], error_message := none } :=
  c5_no_validation_returns_success c5_env none rfl

/-! ## C6: validation spec whose script is absent from disk -/

/-- C6: `validate_task` never checks the script path on disk; with the
script absent, `subprocess.run(["python", script])` exits non-zero and the
result is FAILURE with empty artifacts and the message
`"Validation script failed: " ++ stderr` — the Python interpreter's stderr
says "No such file or directory", so the message does **not** contain
"not found" as the claim and the repository's own test
`test_validate_task_missing_script` require.  This theorem evaluates the
code on that world. -/
theorem c6_missing_script_behaviour :
    validate_task c6_env
        (some { script := "validate_test.py",
                artifacts := ["test.txt", "metrics.json"] }) =
      { status := .failure, artifacts := [],
        error_message := some (.str ("Validation script failed: " ++ c6_stderr)) } ∧
    strContains ("Validation script failed: " ++ c6_stderr) "not found" = false :=
  ⟨rfl, by decide⟩

/-! ## C8: metrics in ValidationResult -/

/-- C8: `ValidationResult` has no metrics field (the embedding mirrors the
dataclass's three fields exactly) and `validate_task` performs no metrics
extraction: on a run whose collected artifacts include a metrics document
with a numeric field, the result is just SUCCESS plus the raw artifact
strings — the metrics document stays uninterpreted.  The repository's own
tests (`test_validate_task_success`, `test_metrics_collection`) read
`result.metrics`, which the dataclass does not define, so the claim is
recorded as a code bug and this theorem evaluates the code. -/
theorem c8_metrics_not_extracted :
    validate_task c8_env (some c8_validation) =
      { status := .success,
        artifacts := [("test.txt", "Test output"),
                      ("metrics.json", "\x7b\"test_coverage\": 85\x7d")],
        error_message := none } := by
  rfl

/-! ## C2: atomicity of the status save -/

/-- C2 counterexample: saving the document "new document" over a status file
holding "prior valid document" passes through a crash state in which the
file holds neither the old nor the new document (it is empty right after
`open(path, "w")` truncates it). -/
theorem c2_counterexample :
    ¬ (∀ st ∈ crashStates c2_fs (saveStatusOps "test_status.json" "new document"),
        getA st "test_status.json" = some "prior valid document" ∨
        getA st "test_status.json" = some "new document") := by
  decide

/-- C2 amended: `_save_status` is a direct in-place write, not a
write-to-temporary-then-rename: every operation it performs targets the
status path itself, a completed save leaves exactly the new document, and
the state after the first operation (the truncation) holds an empty file —
which is what a crash mid-write exposes. -/
theorem c2_save_writes_in_place (fs : Fs) (p doc : String) :
    (saveStatusOps p doc).all (fun op => op.path == p) = true ∧
    getA (applyOps fs (saveStatusOps p doc)) p = some doc ∧
    getA (applyOps fs ((saveStatusOps p doc).take 1)) p = some "" := by
  refine ⟨by simp [saveStatusOps, FsOp.path], ?_, ?_⟩
  · simp [saveStatusOps, applyOps, applyOp, getA_setA]
  · simp [saveStatusOps, applyOps, applyOp, getA_setA]

/-! ## C3: blocker resolution precedence -/

theorem isEmpty_eq_decide {α : Type} [DecidableEq α] (l : List α) :
    l.isEmpty = decide (l = []) := by
  cases l <;> simp

/-- The resolver's decision, stage by stage: this is the shape shared by the
C3 and C10 arguments. -/
theorem check_if_resolved_eq_staged (env : BlockerEnv) (b : Blocker) :
    check_if_resolved env b = stagedResolution env b.resolution := by
  unfold check_if_resolved stagedResolution diagPasses
  simp only [isEmpty_eq_decide]
  cases hd : b.resolution.diagnostics with
  | none => simp [hd]
  | some d =>
    cases hr : env.diagRun with
    | exc m => simp [hd, hr]
    | ran rc out err =>
      by_cases hrc : rc = 0
      · subst hrc
        cases hp : env.diagParse with
        | decodeError => simp [hd, hr, hp]
        | nonDict => simp [hd, hr, hp]
        | dict fields =>
          cases hs : getA fields "status" with
          | none => simp [hd, hr, hp, hs]
          | some v =>
            by_cases hv : v.isStr "success" = true <;>
              simp [hd, hr, hp, hs, hv]
      · simp [hd, hr, bne, hrc, show (rc == 0) = false by simpa using hrc]

/-- C3 counterexample: a blocker whose diagnostic command exits zero with
tolerated non-structured stdout, and which also lists a required expert and
no prompt, is **unresolved** — the passing diagnostic falls through to the
required-experts rule instead of resolving the blocker as the claim
states. -/
theorem c3_counterexample : check_if_resolved c3_env c3_blocker = false := by
  decide

/-- C3 amended: per blocker the code evaluates stages, not
first-match-wins rules: a declared diagnostic that fails (raised run,
non-zero exit, structured non-success status, or structured non-dict
stdout) forces unresolved; otherwise — whether or not a diagnostic was
declared and passed — a truthy assistant prompt decides by the
case-insensitive "resolved" substring test, and failing that the blocker is
resolved exactly when its required-experts list is empty. -/
theorem c3_resolution_is_staged (env : BlockerEnv) (b : Blocker) :
    check_if_resolved env b = stagedResolution env b.resolution :=
  check_if_resolved_eq_staged env b

/-! ## C10: the assistant-prompt rule -/

/-- C10: a blocker that reaches the assistant-prompt rule (diagnostics
absent or passing, truthy prompt) is resolved exactly when the assistant's
response, lowercased, contains the substring "resolved". -/
theorem c10_prompt_substring (env : BlockerEnv) (b : Blocker)
    (hd : b.resolution.diagnostics = none ∨ diagPasses env = true)
    (hp : promptTruthy b.resolution.lmstudio_prompt = true) :
    check_if_resolved env b = strContains (pyLower env.aiResponse) "resolved" := by
  rw [check_if_resolved_eq_staged]
  unfold stagedResolution
  rcases hd with h | h
  · simp [h, hp]
  · simp [h, hp]

/-- C10 witness: the response "unresolved" contains the substring
"resolved", so it *resolves* the blocker. -/
theorem c10_prompt_substring_witness :
    check_if_resolved c10_env c10_blocker = true :=
  (c10_prompt_substring c10_env c10_blocker (Or.inr (by decide))
    (by decide)).trans (by decide)

/-! ## C9: artifact cleanup (spec-modelled) -/

/-- C9: `cleanup_artifacts` deletes exactly the files whose last-access age
exceeds the threshold, preserves the files within the window, returns the
number of deleted files, and returns 0 leaving the store unchanged when the
directory does not exist.  (The operation is modelled from the spec because
the method is absent from `src/`; only its test calls it.) -/
theorem c9_cleanup_spec (store : List (String × List AFile)) (tid : String)
    (m : Nat) :
    (getA store tid = none → cleanup_artifacts store tid m = (0, store)) ∧
    (∀ files, getA store tid = some files →
      (cleanup_artifacts store tid m).1 =
        (files.filter (fun f => decide (m < f.accessAgeDays))).length ∧
      getA (cleanup_artifacts store tid m).2 tid =
        some (files.filter (fun f => decide (f.accessAgeDays ≤ m)))) := by
  constructor
  · intro h
    unfold cleanup_artifacts
    rw [h]
  · intro files h
    unfold cleanup_artifacts
    rw [h]
    refine ⟨rfl, ?_⟩
    simp only [getA_setA, beq_self_eq_true, if_true]
    congr 1
    apply List.filter_congr
    intro f _
    rw [← decide_not]
    exact decide_eq_decide.mpr Nat.not_lt

/-- C9 witness: with a 7-day window, a directory holding one file aged 8
days and one aged 0 days yields one deletion and keeps only the fresh
file. -/
theorem c9_cleanup_spec_witness :
    (cleanup_artifacts c9_store "test_phase/test_task" 7).1 = 1 ∧
    getA (cleanup_artifacts c9_store "test_phase/test_task" 7).2
        "test_phase/test_task" =
      some [{ name := "new.txt", accessAgeDays := 0 }] :=
  ⟨(((c9_cleanup_spec c9_store "test_phase/test_task" 7).2
      [{ name := "old.txt", accessAgeDays := 8 },
       { name := "new.txt", accessAgeDays := 0 }] rfl).1).trans (by decide),
   (((c9_cleanup_spec c9_store "test_phase/test_task" 7).2
      [{ name := "old.txt", accessAgeDays := 8 },
       { name := "new.txt", accessAgeDays := 0 }] rfl).2).trans (by decide)⟩

/-! ## C1: what the engine does with a validation spec -/

theorem valStage_spec (te : TaskEnv) (pname : String) (t : Task)
    (st : ExecState) (hv : t.validation.isSome = true) :
    (valStage te pname t st).2 = ! valPassed te ∧
    (valStage te pname t st).1.doc =
      setTask st.doc pname t.description
        (if valPassed te then .completed else .failed) := by
  obtain ⟨v, hv'⟩ := Option.isSome_iff_exists.mp hv
  unfold valStage valPassed
  rw [hv']
  cases hr : te.valRun with
  | exc m => simp [save, markTask, emit]
  | ran rc out err =>
    by_cases hrc : rc = 0
    · subst hrc
      simp [save, markTask, emit]
    · simp [save, markTask, emit, bne, hrc,
        show (rc == 0) = false by simpa using hrc]

theorem cmdStage_spec (te : TaskEnv) (pname : String) (t : Task)
    (st : ExecState) (hv : t.validation.isSome = true)
    (hc : t.command = none ∨
      ∃ cmd out err, t.command = some cmd ∧ te.cmdRun = .ran 0 out err) :
    (cmdStage te pname t st).2 = ! valPassed te ∧
    (cmdStage te pname t st).1.doc =
      setTask st.doc pname t.description
        (if valPassed te then .completed else .failed) := by
  rcases hc with hcm | ⟨cmd, out, err, hcm, hrun⟩
  · unfold cmdStage
    rw [hcm]
    exact valStage_spec te pname t st hv
  · unfold cmdStage
    rw [hcm]
    simp only [hrun]
    have h := valStage_spec te pname t
      (emit (.cmdRun pname t.description) st) hv
    simpa [emit] using h

/-- C1 amended: the engine does not delegate to the validation pipeline.
For a reached task with a validation spec (blockers resolved, command stage
passed), `execute_checklist` runs the script itself and consults only the
exit code of that process: zero exit leaves the task COMPLETED regardless
of the status the script reported on stdout; non-zero exit or a spawn
failure leaves it FAILED and aborts the run. -/
theorem c1_validation_by_exit_code_only (te : TaskEnv) (pname : String)
    (t : Task) (st : ExecState) (hv : t.validation.isSome = true)
    (hb : resolve_blockers te.blockerEnv t.blockers = [])
    (hc : t.command = none ∨
      ∃ cmd out err, t.command = some cmd ∧ te.cmdRun = .ran 0 out err) :
    (runTask te pname t st).2 = ! valPassed te ∧
    (runTask te pname t st).1.doc =
      setTask (setTask st.doc pname t.description .in_progress) pname
        t.description (if valPassed te then .completed else .failed) := by
  unfold runTask
  by_cases hbe : t.blockers.isEmpty
  · simp only [hbe, if_true]
    exact cmdStage_spec te pname t _ hv hc
  · simp only [hbe, Bool.false_eq_true, if_false, hb, List.isEmpty_nil,
      if_true]
    exact cmdStage_spec te pname t _ hv hc

/-- C1 amended, witness: the task of `c1_checklist` (validation spec
present, script exits 0 reporting `status: failure`) completes without an
abort. -/
theorem c1_validation_by_exit_code_only_witness :
    (runTask c1_taskEnv "P1" c1_task
        { doc := initStatus c1_checklist, saves := [], events := [] }).2 =
      ! valPassed c1_taskEnv ∧
    (runTask c1_taskEnv "P1" c1_task
        { doc := initStatus c1_checklist, saves := [], events := [] }).1.doc =
      setTask (setTask (initStatus c1_checklist) "P1" c1_task.description
          .in_progress) "P1" c1_task.description
        (if valPassed c1_taskEnv then .completed else .failed) :=
  c1_validation_by_exit_code_only c1_taskEnv "P1" c1_task
    { doc := initStatus c1_checklist, saves := [], events := [] } rfl rfl
    (Or.inl rfl)

/-- C1 counterexample: on a run whose validation script exits 0 while
reporting `status: failure`, the engine exits 0 and leaves the task
COMPLETED, while the validation pipeline's result for the same world is
FAILURE, whose claimed 1:1 image is FAILED — so the task's terminal status
is not the image of the pipeline's status. -/
theorem c1_counterexample :
    (execute_checklist c1_env c1_checklist (initStatus c1_checklist)).2 = 0 ∧
    getTask (execute_checklist c1_env c1_checklist
        (initStatus c1_checklist)).1.doc "P1" "T1" = some .completed ∧
    terminalImage (validate_task c1_valEnv c1_task.validation).status =
      TaskStatus.failed := by
  refine ⟨by decide, by decide, by decide⟩

/-! ## C7: fail-fast on command failure -/

theorem getA_append {α : Type} (xs ys : List (String × α)) (k : String) :
    getA (xs ++ ys) k =
      match getA xs k with
      | some v => some v
      | none => getA ys k := by
  induction xs with
  | nil => simp [getA]
  | cons kv rest ih =>
    by_cases h : kv.1 == k <;> simp [getA, h, ih]

theorem startPhase_present (st : ExecState) (p : String) :
    (getA (startPhase st p).doc p).isSome := by
  unfold startPhase setPhase ensurePhase
  cases hg : getA st.doc p with
  | some e => simp [save, emit, hg, getA_setA]
  | none =>
    have hap : getA ((emit (.phaseStart p) st).doc ++
        [(p, { status := .not_started, tasks := [] })]) p =
        some { status := .not_started, tasks := [] } := by
      rw [getA_append]
      simp [emit, hg, getA]
    simp [save, emit] at hap ⊢
    simp [hg, hap, getA_setA]

theorem valStage_doc_present (te : TaskEnv) (pname : String) (t : Task)
    (st : ExecState) (q : String) (h : (getA st.doc q).isSome) :
    (getA (valStage te pname t st).1.doc q).isSome := by
  unfold valStage
  cases t.validation with
  | none => exact setTask_present _ _ _ _ _ h
  | some v =>
    cases te.valRun with
    | exc m => exact setTask_present _ _ _ _ _ h
    | ran rc out err =>
      by_cases hrc : (rc != 0) = true <;> simp only [hrc] <;>
        exact setTask_present _ _ _ _ _ h

theorem cmdStage_doc_present (te : TaskEnv) (pname : String) (t : Task)
    (st : ExecState) (q : String) (h : (getA st.doc q).isSome) :
    (getA (cmdStage te pname t st).1.doc q).isSome := by
  unfold cmdStage
  cases t.command with
  | none => exact valStage_doc_present te pname t st q h
  | some c =>
    cases te.cmdRun with
    | exc m => exact setTask_present _ _ _ _ _ h
    | ran rc out err =>
      by_cases hrc : (rc != 0) = true
      · simp only [hrc, if_true]
        exact setTask_present _ _ _ _ _ h
      · simp only [Bool.not_eq_true] at hrc
        simp only [hrc, Bool.false_eq_true, if_false]
        exact valStage_doc_present te pname t _ q h

theorem runTask_doc_present (te : TaskEnv) (pname : String) (t : Task)
    (st : ExecState) (q : String) (h : (getA st.doc q).isSome) :
    (getA (runTask te pname t st).1.doc q).isSome := by
  unfold runTask
  have h1 : (getA (save (markTask (emit (.taskStart pname t.description) st)
      pname t.description .in_progress)).doc q).isSome :=
    setTask_present _ _ _ _ _ h
  by_cases hbe : t.blockers.isEmpty
  · simp only [hbe, if_true]
    exact cmdStage_doc_present te pname t _ q h1
  · simp only [hbe, Bool.false_eq_true, if_false]
    by_cases hu : (resolve_blockers te.blockerEnv t.blockers).isEmpty
    · simp only [hu, if_true]
      exact cmdStage_doc_present te pname t _ q h1
    · simp only [hu, Bool.false_eq_true, if_false]
      exact setTask_present _ _ _ _ _ h1

theorem runTasks_doc_present (env : Nat → TaskEnv) (pname : String)
    (ts : List Task) (i : Nat) (st : ExecState) (q : String)
    (h : (getA st.doc q).isSome) :
    (getA (runTasks env pname ts i st).1.doc q).isSome := by
  induction ts generalizing i st with
  | nil => exact h
  | cons t rest ih =>
    simp only [runTasks]
    rcases hr : runTask (env i) pname t st with ⟨st', ab⟩
    have h' : (getA st'.doc q).isSome := by
      have := runTask_doc_present (env i) pname t st q h
      rw [hr] at this
      exact this
    cases ab
    · exact ih (i + 1) st' h'
    · exact h'

theorem runTasks_append (env : Nat → TaskEnv) (pname : String)
    (xs ys : List Task) (i : Nat) (st : ExecState) :
    runTasks env pname (xs ++ ys) i st =
      match runTasks env pname xs i st with
      | (st', true) => (st', true)
      | (st', false) => runTasks env pname ys (i + xs.length) st' := by
  induction xs generalizing i st with
  | nil => simp [runTasks]
  | cons x xs ih =>
    simp only [List.cons_append, runTasks]
    rcases hr : runTask (env i) pname x st with ⟨st', ab⟩
    cases ab
    · simp only []
      rw [List.append_eq, ih]
      have he : i + 1 + xs.length = i + (xs.length + 1) := by omega
      rw [List.length_cons, he]
    · simp

theorem runPhases_append (env : Nat → Nat → TaskEnv)
    (xs ys : List OPhase) (i : Nat) (st : ExecState) :
    runPhases env (xs ++ ys) i st =
      match runPhases env xs i st with
      | (st', true) => (st', true)
      | (st', false) => runPhases env ys (i + xs.length) st' := by
  induction xs generalizing i st with
  | nil => simp [runPhases]
  | cons x xs ih =>
    simp only [List.cons_append, runPhases]
    rcases hr : runPhase (env i) x st with ⟨st', ab⟩
    cases ab
    · simp only []
      rw [List.append_eq, ih]
      have he : i + 1 + xs.length = i + (xs.length + 1) := by omega
      rw [List.length_cons, he]
    · simp

theorem getLast?_append_singleton {α : Type} (l : List α) (a : α) :
    (l ++ [a]).getLast? = some a := by
  rw [List.getLast?_concat]

/-- C7: fail-fast.  In any run that reaches a task whose declared command
exits non-zero (the phases before it and the tasks before it within its
phase having finished without aborting, and its blockers resolving), the
run exits with code 1; the failing task is marked FAILED in the final
document; that final document is exactly the last one persisted; and the
event trace ends at the failing command — no later task of this phase and
nothing of any later phase runs a process or is even started. -/
theorem c7_command_failure_aborts_run
    (env : Nat → Nat → TaskEnv) (doc0 : StatusDoc)
    (pre post : List OPhase) (ph : OPhase) (tpre tpost : List Task)
    (t : Task) (st1 st2 : ExecState) (cmd out err : String) (rc : Int)
    (hph : ph.tasks = tpre ++ t :: tpost)
    (hpre : runPhases env pre 0 { doc := doc0, saves := [], events := [] } =
      (st1, false))
    (htpre : runTasks (env pre.length) ph.name tpre 0
      (startPhase st1 ph.name) = (st2, false))
    (hb : resolve_blockers (env pre.length tpre.length).blockerEnv
      t.blockers = [])
    (hcmd : t.command = some cmd)
    (hrun : (env pre.length tpre.length).cmdRun = .ran rc out err)
    (hrc : rc ≠ 0) :
    (execute_checklist env ⟨pre ++ ph :: post⟩ doc0).2 = 1 ∧
    getTask (execute_checklist env ⟨pre ++ ph :: post⟩ doc0).1.doc ph.name
      t.description = some .failed ∧
    (execute_checklist env ⟨pre ++ ph :: post⟩ doc0).1.saves.getLast? =
      some (execute_checklist env ⟨pre ++ ph :: post⟩ doc0).1.doc ∧
    (execute_checklist env ⟨pre ++ ph :: post⟩ doc0).1.events =
      st2.events ++ [.taskStart ph.name t.description,
                     .cmdRun ph.name t.description] := by
  have hrc' : (rc != 0) = true := by simpa using hrc
  have hstep : runTask (env pre.length tpre.length) ph.name t st2 =
      (save (markTask (emit (.cmdRun ph.name t.description)
          (save (markTask (emit (.taskStart ph.name t.description) st2)
            ph.name t.description .in_progress)))
        ph.name t.description .failed), true) := by
    unfold runTask cmdStage
    by_cases hbe : t.blockers.isEmpty <;>
      simp only [hbe, Bool.false_eq_true, if_false, if_true, hb,
        List.isEmpty_nil, hcmd, hrun, hrc']
  have hphase : runPhase (env pre.length) ph st1 =
      (save (markTask (emit (.cmdRun ph.name t.description)
          (save (markTask (emit (.taskStart ph.name t.description) st2)
            ph.name t.description .in_progress)))
        ph.name t.description .failed), true) := by
    unfold runPhase
    rw [hph, runTasks_append, htpre]
    simp only [Nat.zero_add, runTasks]
    rw [hstep]
  have hexec : execute_checklist env ⟨pre ++ ph :: post⟩ doc0 =
      (save (markTask (emit (.cmdRun ph.name t.description)
          (save (markTask (emit (.taskStart ph.name t.description) st2)
            ph.name t.description .in_progress)))
        ph.name t.description .failed), 1) := by
    unfold execute_checklist
    rw [runPhases_append, hpre]
    simp only [Nat.zero_add, runPhases]
    rw [hphase]
  have hpr1 : (getA st2.doc ph.name).isSome := by
    have h1 := runTasks_doc_present (env pre.length) ph.name tpre 0
      (startPhase st1 ph.name) ph.name (startPhase_present st1 ph.name)
    rw [htpre] at h1
    exact h1
  refine ⟨by rw [hexec], ?_, ?_, ?_⟩
  · rw [hexec]
    exact getTask_setTask_self _ _ _ _ (setTask_present _ _ _ _ _ hpr1)
  · rw [hexec]
    exact getLast?_append_singleton _ _
  · rw [hexec]
    simp [save, markTask, emit]

/-- C7 witness: a concrete two-phase run whose first phase's first task
runs a command exiting 1. -/
theorem c7_command_failure_aborts_run_witness :
    (execute_checklist c7_env c7_checklist (initStatus c7_checklist)).2 = 1 ∧
    getTask (execute_checklist c7_env c7_checklist
        (initStatus c7_checklist)).1.doc "P1" "T1" = some .failed ∧
    (execute_checklist c7_env c7_checklist
        (initStatus c7_checklist)).1.saves.getLast? =
      some (execute_checklist c7_env c7_checklist
        (initStatus c7_checklist)).1.doc ∧
    (execute_checklist c7_env c7_checklist
        (initStatus c7_checklist)).1.events =
      (startPhase { doc := initStatus c7_checklist, saves := [], events := [] }
          "P1").events ++
        [.taskStart "P1" "T1", .cmdRun "P1" "T1"] :=
  c7_command_failure_aborts_run c7_env (initStatus c7_checklist) []
    [c7_phase2] c7_phase1 [] [c7_taskAfter] c7_taskFail
    { doc := initStatus c7_checklist, saves := [], events := [] }
    (startPhase { doc := initStatus c7_checklist, saves := [], events := [] }
      "P1")
    "exit 1" "" "command failed" 1 rfl rfl rfl rfl rfl rfl (by decide)

end SmoothOperator
